import Mathlib

/-!
Verification of the ChiselStore RPC transport module (src/src/rpc.rs) against
its natural-language specification. The module marshals omnipaxos consensus
and ballot-leader-election messages between their in-memory representation and
flat protobuf wire records, manages per-peer connection pools, and exposes the
inbound gRPC service. We give a shallow embedding of the data model, the
decode/encode functions, the send path, the inbound handlers and the pool,
and prove or refute the specified properties.

Machine integers (u32/u64) are modelled as `Nat`: the module only moves field
values around and never performs arithmetic on them, except for the `as u8`
cast in `stopsign_from_proto`, which is modelled explicitly as `% 256`.
A Rust `panic` (an `Option::unwrap` / `Result::unwrap` on an empty value) is
modelled as an explicit `panicked` outcome, distinct from returning a gRPC
error `Status`.
-/

namespace ChiselStore

/-! ## Engine-side data model (omnipaxos types as used by rpc.rs) -/

/-- omnipaxos_core::ballot_leader_election::Ballot: ordered triple of scalars. -/
structure Ballot where
  n : Nat
  priority : Nat
  pid : Nat
deriving DecidableEq

/-- crate::StoreCommand { id: u64, sql: String }. -/
structure StoreCommand where
  id : Nat
  sql : String
deriving DecidableEq

/-- omnipaxos_core::storage::StopSign { config_id, nodes, metadata: Option of bytes }. -/
structure StorageStopSign where
  config_id : Nat
  nodes : List Nat
  metadata : Option (List Nat)
deriving DecidableEq

/-- omnipaxos_core::storage::SnapshotType with snapshot parameter instantiated at unit,
as in rpc.rs where messages are Message of StoreCommand and unit. -/
inductive SnapshotType where
  | complete (s : Unit)
  | delta (s : Unit)
deriving DecidableEq

/-- omnipaxos_core::util::SyncItem of StoreCommand and unit. -/
inductive SyncItem where
  | entries (es : List StoreCommand)
  | snapshot (st : SnapshotType)
  | none
deriving DecidableEq

/-- omnipaxos Prepare payload. -/
structure Prepare where
  n : Ballot
  ld : Nat
  n_accepted : Ballot
  la : Nat
deriving DecidableEq

/-- omnipaxos Promise payload. -/
structure Promise where
  n : Ballot
  n_accepted : Ballot
  sync_item : Option SyncItem
  ld : Nat
  la : Nat
  stopsign : Option StorageStopSign
deriving DecidableEq

/-- omnipaxos AcceptSync payload. -/
structure AcceptSync where
  n : Ballot
  sync_item : SyncItem
  sync_idx : Nat
  decide_idx : Option Nat
  stopsign : Option StorageStopSign
deriving DecidableEq

/-- omnipaxos FirstAccept payload. -/
structure FirstAccept where
  n : Ballot
  entries : List StoreCommand
deriving DecidableEq

/-- omnipaxos AcceptDecide payload. -/
structure AcceptDecide where
  n : Ballot
  ld : Nat
  entries : List StoreCommand
deriving DecidableEq

/-- omnipaxos Accepted payload. -/
structure Accepted where
  n : Ballot
  la : Nat
deriving DecidableEq

/-- omnipaxos Decide payload. -/
structure Decide where
  n : Ballot
  ld : Nat
deriving DecidableEq

/-- omnipaxos Compaction command: Trim(index) or Snapshot(opaque scalar payload). -/
inductive Compaction where
  | trim (t : Nat)
  | snapshot (s : Nat)
deriving DecidableEq

/-- omnipaxos AcceptStopSign payload. -/
structure AcceptStopSign where
  n : Ballot
  ss : StorageStopSign
deriving DecidableEq

/-- omnipaxos AcceptedStopSign payload. -/
structure AcceptedStopSign where
  n : Ballot
deriving DecidableEq

/-- omnipaxos DecideStopSign payload. -/
structure DecideStopSign where
  n : Ballot
deriving DecidableEq

/-- omnipaxos PaxosMsg: the consensus-message tagged union, one case per phase. -/
inductive PaxosMsg where
  | prepare (p : Prepare)
  | promise (p : Promise)
  | acceptSync (p : AcceptSync)
  | firstAccept (p : FirstAccept)
  | acceptDecide (p : AcceptDecide)
  | accepted (p : Accepted)
  | decide (p : Decide)
  | proposalForward (entries : List StoreCommand)
  | compaction (c : Compaction)
  | forwardCompaction (c : Compaction)
  | acceptStopSign (p : AcceptStopSign)
  | acceptedStopSign (p : AcceptedStopSign)
  | decideStopSign (p : DecideStopSign)
deriving DecidableEq

/-- omnipaxos Message: the envelope { from, to, msg } around a PaxosMsg. -/
structure Message where
  from_ : Nat
  to_ : Nat
  msg : PaxosMsg
deriving DecidableEq

/-- omnipaxos HeartbeatRequest { round }. -/
structure HeartbeatRequest where
  round : Nat
deriving DecidableEq

/-- omnipaxos HeartbeatReply { round, ballot, majority_connected }. -/
structure HeartbeatReply where
  round : Nat
  ballot : Ballot
  majority_connected : Bool
deriving DecidableEq

/-- omnipaxos HeartbeatMsg: the election-message tagged union. -/
inductive HeartbeatMsg where
  | request (r : HeartbeatRequest)
  | reply (r : HeartbeatReply)
deriving DecidableEq

/-- omnipaxos BLEMessage: the envelope around a HeartbeatMsg. -/
structure BLEMessage where
  from_ : Nat
  to_ : Nat
  msg : HeartbeatMsg
deriving DecidableEq

/-! ## Wire-side (protobuf-generated) records

The proto definitions are compiled in by tonic and the .proto file is not part
of the source tree; field shapes are modelled from the spec (section 4.1:
Ballot as three scalar fields, LogSyncItem as a tagged union, StopSign.metadata
as a repeated small-integer field) and from the accessors rpc.rs applies to the
generated types. -/

/-- Wire Ballot: three scalar fields. -/
structure ProtoBallot where
  n : Nat
  priority : Nat
  pid : Nat
deriving DecidableEq

/-- Wire StoreCommand { id, sql }. -/
structure ProtoStoreCommand where
  id : Nat
  sql : String
deriving DecidableEq

/-- Wire StopSign: metadata is a repeated small-integer field, each element a
wire integer (not a byte), per spec section 4.1. -/
structure ProtoStopSign where
  config_id : Nat
  nodes : List Nat
  metadata : List Nat
deriving DecidableEq

/-- Wire Entries wrapper holding the repeated store_commands field. -/
structure ProtoEntries where
  store_commands : List ProtoStoreCommand
deriving DecidableEq

/-- Wire sync_item::Item: the tagged union inside a wire SyncItem. The snapshot
case carries an opaque wire payload, modelled as a scalar. -/
inductive ProtoSyncItemKind where
  | entries (e : ProtoEntries)
  | snapshot (s : Nat)
  | none (u : Unit)
deriving DecidableEq

/-- Wire SyncItem: a protobuf oneof, absent when no variant was set. -/
structure ProtoSyncItem where
  item : Option ProtoSyncItemKind
deriving DecidableEq

/-- Wire PrepareReq: from/to plus the Prepare fields; the ballots are optional
sub-messages, as every message-typed protobuf field is. -/
structure PrepareReq where
  from_ : Nat
  to_ : Nat
  n : Option ProtoBallot
  ld : Nat
  n_accepted : Option ProtoBallot
  la : Nat
deriving DecidableEq

/-- Wire Query { sql } for the client execute operation. -/
structure Query where
  sql : String
deriving DecidableEq

/-- Wire QueryRow { values }. -/
structure QueryRow where
  values : List String
deriving DecidableEq

/-- Wire QueryResults { rows }. -/
structure QueryResults where
  rows : List QueryRow
deriving DecidableEq

/-! ## Outcome types -/

/-- Result of running a code path that may hit an unwrap on an empty value:
either a value or a Rust panic. -/
inductive Panics (α : Type) where
  | ret (a : α)
  | panicked
deriving DecidableEq

/-- gRPC statuses the module constructs (rpc.rs only ever builds
Status::internal; invalid_argument is named by the spec's error taxonomy). -/
inductive Status where
  | internal (msg : String)
  | invalidArgument (msg : String)
deriving DecidableEq

/-- Outcome of an inbound handler: a successful acknowledgement carrying the
value delivered to the engine, an explicit error status, or a panic. -/
inductive HResult (α : Type) where
  | ok (a : α)
  | err (s : Status)
  | panicked
deriving DecidableEq

/-! ## Decoders (rpc.rs lines 115-155) -/

/-- ballot_from_proto (rpc.rs 115-121): field-for-field copy. -/
def ballot_from_proto (b : ProtoBallot) : Ballot :=
  { n := b.n, priority := b.priority, pid := b.pid }

/-- store_command_from_proto (rpc.rs 123-128): field-for-field copy. -/
def store_command_from_proto (sc : ProtoStoreCommand) : StoreCommand :=
  { id := sc.id, sql := sc.sql }

/-- stopsign_from_proto (rpc.rs 130-140): copies config_id and nodes and maps
each metadata element through the Rust cast "md as u8", i.e. truncation modulo
256; the result is always wrapped in Some. -/
def stopsign_from_proto (ss : ProtoStopSign) : StorageStopSign :=
  { config_id := ss.config_id
    nodes := ss.nodes
    metadata := some (ss.metadata.map (fun md => md % 256)) }

/-- sync_item_from_proto (rpc.rs 142-155): unwraps the oneof (panicking when it
is unset), maps Entries element-wise, collapses every wire Snapshot to
SyncItem::Snapshot(SnapshotType::Delta(())) discarding the payload, and maps
the None tag to SyncItem::None. -/
def sync_item_from_proto (si : ProtoSyncItem) : Panics SyncItem :=
  match si.item with
  | Option.none => .panicked
  | some (.entries e) =>
      .ret (.entries (e.store_commands.map store_command_from_proto))
  | some (.snapshot _) => .ret (.snapshot (.delta ()))
  | some (.none _) => .ret .none

/-- proto_from_ballot (rpc.rs 157-163): field-for-field copy. -/
def proto_from_ballot (b : Ballot) : ProtoBallot :=
  { n := b.n, priority := b.priority, pid := b.pid }

/-! ## Outbound transport (rpc.rs 165-201) -/

/-- The background unit of work spawned by send_sp: the resolved peer address
and the wire request the task will send. -/
structure SpawnedPrepare where
  peer : String
  req : PrepareReq
deriving DecidableEq

/-- RpcTransport::send_sp (rpc.rs 167-196). The match over msg.msg has a single
arm, PaxosMsg::Prepare, which builds a PrepareReq and spawns one task; no other
consensus variant has a match arm or an encode path, modelled as none. -/
def send_sp (node_addr : Nat → String) (to_id : Nat) (msg : Message) :
    Option SpawnedPrepare :=
  match msg.msg with
  | .prepare prepare =>
      some { peer := node_addr to_id
             req := { from_ := msg.from_
                      to_ := msg.to_
                      n := some (proto_from_ballot prepare.n)
                      ld := prepare.ld
                      n_accepted := some (proto_from_ballot prepare.n_accepted)
                      la := prepare.la } }
  | _ => Option.none

/-- Number of background tasks send_sp spawns for a given message. -/
def send_sp_spawn_count (node_addr : Nat → String) (to_id : Nat) (msg : Message) : Nat :=
  match send_sp node_addr to_id msg with
  | some _ => 1
  | Option.none => 0

/-- RpcTransport::send_ble (rpc.rs 198-200): the body is empty; no task is
spawned and no wire request is built for any election message. The returned
list of spawned units of work is therefore always empty. -/
def send_ble (to_id : Nat) (msg : BLEMessage) : List SpawnedPrepare :=
  []

/-- Outcome of a network step inside the spawned task. -/
inductive NetResult (α : Type) where
  | ok (a : α)
  | err (e : String)
deriving DecidableEq

/-- Body of the task spawned by send_sp (rpc.rs 189-193): obtain a client from
the pool — ConnectionPool::connection (rpc.rs 62-68) pops an idle handle if
present, otherwise calls RpcClient::connect(addr).await.unwrap() — then call
client.conn.prepare(req).await.unwrap(). Both unwraps turn a network error
into a panic of this background task. `idle` is the pooled handle, if any;
`connect` the outcome of a fresh connect; `call` the outcome of the remote
prepare call on a given client (clients are modelled as scalars). -/
def prepare_task (idle : Option Nat) (connect : NetResult Nat)
    (call : Nat → NetResult Unit) : Panics Unit :=
  let client : Panics Nat :=
    match idle with
    | some c => .ret c
    | Option.none =>
        match connect with
        | .ok c => .ret c
        | .err _ => .panicked
  match client with
  | .panicked => .panicked
  | .ret c =>
      match call c with
      | .ok _ => .ret ()
      | .err _ => .panicked

/-! ## Inbound service handlers (rpc.rs 219-311) -/

/-- Fake-able engine query interface: StoreServer::query returns rows or an
error, rendered to a string by the handler. -/
structure EngineRow where
  values : List String
deriving DecidableEq

/-- Engine query results: a list of rows. -/
structure EngineResults where
  rows : List EngineRow
deriving DecidableEq

/-- RpcService::execute (rpc.rs 221-241): forwards query.sql to
server.query; on error returns Status::internal(format of e); on success
copies each row's values, in order, into QueryResults. -/
def rpc_execute (query_fn : String → Except String EngineResults) (req : Query) :
    HResult QueryResults :=
  match query_fn req.sql with
  | .error e => .err (.internal e)
  | .ok results =>
      .ok { rows := results.rows.map (fun row => { values := row.values }) }

/-- RpcService::prepare (rpc.rs 243-268): unwraps the two ballot sub-messages
(panicking when either is absent), rebuilds the Prepare payload and the
Message envelope, and delivers it to the engine via recv_sp_msg; the ok value
is the delivered message (the gRPC reply itself is the empty Void). The
handler never constructs an error Status. -/
def rpc_prepare (req : PrepareReq) : HResult Message :=
  match req.n with
  | Option.none => .panicked
  | some n0 =>
      match req.n_accepted with
      | Option.none => .panicked
      | some na0 =>
          .ok { from_ := req.from_
                to_ := req.to_
                msg := .prepare { n := ballot_from_proto n0
                                  ld := req.ld
                                  n_accepted := ballot_from_proto na0
                                  la := req.la } }

/-! ## Connection pool (rpc.rs 39-73) and directory (rpc.rs 75-94)

ConnectionPool holds an ArrayQueue of capacity 16 (rpc.rs 58): a lock-free
FIFO whose push fails when the queue is full. Idle handles are modelled as a
list, head = front of the queue; handles themselves as scalars. -/

/-- ConnectionPool::replenish (rpc.rs 70-72): ArrayQueue::push appends to the
back when fewer than 16 handles are idle and fails (discarding the handle,
`let _ =`) when the queue is full. -/
def replenish (q : List Nat) (conn : Nat) : List Nat :=
  if q.length < 16 then q ++ [conn] else q

/-- ConnectionPool::connection (rpc.rs 62-68): pop the front idle handle if
one exists; otherwise a fresh connection is opened (the fresh handle comes
from outside the pool and the idle queue is left empty). Returns the handle
handed out and the remaining idle queue. -/
def pool_connection (q : List Nat) (fresh : Nat) : Nat × List Nat :=
  match q with
  | [] => (fresh, [])
  | x :: xs => (x, xs)

/-- A leased Connection (rpc.rs 44-47): the client handle plus the address of
its originating pool. -/
structure LeasedConnection where
  conn : Nat
  pool : String
deriving DecidableEq

/-- Connection::drop (rpc.rs 49-53): returns the handle to its originating
pool via that pool's replenish; pools of other addresses are untouched. The
directory is modelled as a map from address to idle queue. -/
def connection_drop (dir : String → List Nat) (c : LeasedConnection) :
    String → List Nat :=
  fun a => if a = c.pool then replenish (dir a) c.conn else dir a

/-- One acquire/release event against a single pool: acquire hands out the
front idle handle (or a fresh connection when empty); release returns a
handle through replenish. -/
inductive PoolOp where
  | acquire
  | release (conn : Nat)
deriving DecidableEq

/-- Effect of one acquire/release event on the idle queue. -/
def pool_step (q : List Nat) (op : PoolOp) : List Nat :=
  match op with
  | .acquire => (pool_connection q 0).2
  | .release conn => replenish q conn

/-- Idle queue after a sequence of acquire/release events, starting from the
empty pool ConnectionPool::new creates (rpc.rs 56-60). -/
def run_pool (ops : List PoolOp) : List Nat :=
  ops.foldl pool_step []

/-! ## Directory lock scope (rpc.rs 83-93)

Connections::connection acquires the async mutex guarding the address map,
looks up or inserts the pool for the address, then builds the Connection by
awaiting pool.connection(addr) — which performs RpcClient::connect when the
pool has no idle handle — while the guard is still live; the guard is dropped
at the end of the function scope. The control flow is modelled as the ordered
trace of its suspension-relevant steps. -/

/-- Steps of Connections::connection, in program order. -/
inductive DirStep where
  | lockAcquire
  | lookupInsert
  | netConnect
  | lockRelease
deriving DecidableEq

/-- Step trace of Connections::connection (rpc.rs 83-93), parametrised by
whether the peer's pool holds an idle handle: lock, lookup/insert, then —
still under the lock — the pool hands out a handle, connecting over the
network when no idle handle exists; the guard drops at scope end. -/
def connection_steps (poolHasIdle : Bool) : List DirStep :=
  [.lockAcquire, .lookupInsert]
    ++ (if poolHasIdle then [] else [.netConnect])
    ++ [.lockRelease]

/-- The steps executed while the directory mutex is held: those strictly
between lockAcquire and lockRelease in the trace. -/
def held_steps (t : List DirStep) : List DirStep :=
  ((t.dropWhile (fun s => s ≠ .lockAcquire)).drop 1).takeWhile
    (fun s => s ≠ .lockRelease)

/-! ## Helper lemmas -/

/-- Mapping the mod-256 truncation over a list of in-range elements is the
identity. -/
lemma map_mod256_of_lt (l : List Nat) (h : ∀ md ∈ l, md < 256) :
    l.map (fun md => md % 256) = l := by
  induction l with
  | nil => rfl
  | cons x xs ih =>
      simp only [List.map_cons, List.cons.injEq]
      refine ⟨Nat.mod_eq_of_lt (h x (by simp)), ih ?_⟩
      intro md hmd
      exact h md (by simp [hmd])

/-- One acquire/release event keeps the idle queue within capacity 16. -/
lemma pool_step_length_le (q : List Nat) (op : PoolOp) (h : q.length ≤ 16) :
    (pool_step q op).length ≤ 16 := by
  cases op with
  | acquire =>
      cases q with
      | nil => simp [pool_step, pool_connection]
      | cons x xs =>
          simp only [pool_step, pool_connection, List.length_cons] at h ⊢
          omega
  | release conn =>
      simp only [pool_step, replenish]
      split
      · simp only [List.length_append, List.length_cons, List.length_nil]
        omega
      · exact h

/-- A run of acquire/release events from any within-capacity queue stays
within capacity 16. -/
lemma run_pool_from_length_le (ops : List PoolOp) :
    ∀ q : List Nat, q.length ≤ 16 → (ops.foldl pool_step q).length ≤ 16 := by
  induction ops with
  | nil => intro q h; simpa using h
  | cons op ops ih =>
      intro q h
      exact ih _ (pool_step_length_le q op h)

/-! ## Claims -/

/-- C1 (counterexample): the round-trip law cannot hold over the whole
algebra. The concrete value StopSign { config_id = 0, nodes = [], metadata =
None } is outside the image of the decoder — stopsign_from_proto always
produces metadata = Some — so no encoding of it whatsoever decodes back to
it. -/
theorem c1_round_trip_counterexample :
    ¬ ∃ w : ProtoStopSign,
        stopsign_from_proto w
          = { config_id := 0, nodes := [], metadata := Option.none } := by
  rintro ⟨w, h⟩
  simp [stopsign_from_proto] at h

/-- C1 (amended): decode(encode(m)) = m holds for every Prepare message — the
only value of the algebra with an encode path in the code (send_sp) — with all
envelope and payload fields preserved exactly; it does not extend to the whole
algebra. -/
theorem c1_prepare_round_trip_amended :
    ∀ (node_addr : Nat → String) (to_id f t : Nat) (p : Prepare),
      (send_sp node_addr to_id { from_ := f, to_ := t, msg := .prepare p }).map
          (fun sp => rpc_prepare sp.req)
        = some (.ok { from_ := f, to_ := t, msg := .prepare p }) := by
  intro node_addr to_id f t p
  rfl

/-- C2 (counterexample): an inbound PrepareReq whose required ballot
sub-message n is absent makes the handler panic (unwrap on None); it does not
fail the call with an error status of any kind. -/
theorem c2_missing_ballot_counterexample :
    rpc_prepare { from_ := 1, to_ := 2, n := Option.none, ld := 5,
                  n_accepted := some ⟨1, 0, 1⟩, la := 5 } = .panicked ∧
    ¬ ∃ s : Status,
        rpc_prepare { from_ := 1, to_ := 2, n := Option.none, ld := 5,
                      n_accepted := some ⟨1, 0, 1⟩, la := 5 } = .err s := by
  refine ⟨rfl, ?_⟩
  rintro ⟨s, h⟩
  simp [rpc_prepare] at h

/-- C2 (amended): a malformed inbound request (missing required ballot
sub-message, or a sync item whose oneof is unset) panics the handler rather
than failing the call with an invalid-argument status; the prepare handler
never returns any error status; a well-formed request is decoded and delivered
to the engine. -/
theorem c2_decode_failure_amended :
    (∀ req : PrepareReq,
        req.n = Option.none ∨ req.n_accepted = Option.none →
        rpc_prepare req = .panicked) ∧
    (∀ (req : PrepareReq) (s : Status), rpc_prepare req ≠ .err s) ∧
    (∀ (req : PrepareReq) (b nb : ProtoBallot),
        req.n = some b → req.n_accepted = some nb →
        rpc_prepare req
          = .ok { from_ := req.from_, to_ := req.to_,
                  msg := .prepare { n := ballot_from_proto b, ld := req.ld,
                                    n_accepted := ballot_from_proto nb,
                                    la := req.la } }) ∧
    sync_item_from_proto { item := Option.none } = .panicked := by
  refine ⟨?_, ?_, ?_, rfl⟩
  · intro req h
    rcases h with h | h <;> simp [rpc_prepare, h]
    cases hn : req.n with
    | none => rfl
    | some b => simp [hn]
  · intro req s h
    unfold rpc_prepare at h
    cases hn : req.n with
    | none => simp [hn] at h
    | some b =>
        cases hna : req.n_accepted with
        | none => simp [hn, hna] at h
        | some nb => simp [hn, hna] at h
  · intro req b nb hb hnb
    simp [rpc_prepare, hb, hnb]

/-- C2 (witness): the amended behavior at concrete inputs — a request missing
both ballots panics; a fully populated request decodes and is delivered. -/
theorem c2_decode_failure_amended_witness :
    rpc_prepare { from_ := 1, to_ := 2, n := Option.none, ld := 0,
                  n_accepted := Option.none, la := 0 } = .panicked ∧
    rpc_prepare { from_ := 3, to_ := 4, n := some ⟨5, 6, 7⟩, ld := 8,
                  n_accepted := some ⟨9, 1, 2⟩, la := 3 }
      = .ok { from_ := 3, to_ := 4,
              msg := .prepare { n := ⟨5, 6, 7⟩, ld := 8,
                                n_accepted := ⟨9, 1, 2⟩, la := 3 } } :=
  ⟨c2_decode_failure_amended.1 _ (Or.inl rfl),
   c2_decode_failure_amended.2.2.1 _ ⟨5, 6, 7⟩ ⟨9, 1, 2⟩ rfl rfl⟩

/-- C3 (code-gap evidence): the outbound send path covers only Prepare.
send_sp has no dispatch case for any other consensus variant (shown here for
Promise), and send_ble spawns no work for any election message — those phases
of the protocol are silently dropped, contradicting the spec's required full
coverage. -/
theorem c3_dispatch_gap :
    (∀ (node_addr : Nat → String) (to_id f t : Nat) (pr : Promise),
        send_sp node_addr to_id { from_ := f, to_ := t, msg := .promise pr }
          = Option.none) ∧
    (∀ (to_id : Nat) (m : BLEMessage), send_ble to_id m = []) :=
  ⟨fun _ _ _ _ _ => rfl, fun _ _ => rfl⟩

/-- C4 (counterexample): in the step trace of Connections::connection with an
empty pool, the network connect is executed while the directory mutex is held
— the guard spans the pool's connection acquisition, not just the
lookup/insert step. -/
theorem c4_lock_across_connect_counterexample :
    DirStep.netConnect ∈ held_steps (connection_steps false) := by decide

/-- C4 (amended): the directory mutex is held for the lookup/insert step and,
whenever the peer's pool has no idle handle, also across the network connect;
only when an idle handle exists is nothing but the lookup/insert under the
lock. Concurrent connection_for calls to distinct peers can therefore
serialize on each other's connect I/O. -/
theorem c4_lock_scope_amended :
    ∀ b : Bool, held_steps (connection_steps b)
      = .lookupInsert :: (if b then [] else [.netConnect]) := by
  intro b
  cases b <;> rfl

/-- C5 (counterexample): decoding a wire StopSign whose metadata contains the
out-of-range element 256 is not rejected: the decode succeeds and silently
truncates the element to 0 (the Rust cast md as u8). -/
theorem c5_truncation_counterexample :
    stopsign_from_proto { config_id := 7, nodes := [1, 2, 3], metadata := [256] }
      = { config_id := 7, nodes := [1, 2, 3], metadata := some [0] } := rfl

/-- C5 (amended): the StopSign decode never rejects any input; each metadata
element is truncated modulo 256, and a metadata sequence whose elements are
all in byte range is reproduced byte-for-byte in order. -/
theorem c5_metadata_decode_amended :
    (∀ ss : ProtoStopSign,
        stopsign_from_proto ss
          = { config_id := ss.config_id, nodes := ss.nodes,
              metadata := some (ss.metadata.map (fun md => md % 256)) }) ∧
    (∀ ss : ProtoStopSign, (∀ md ∈ ss.metadata, md < 256) →
        stopsign_from_proto ss
          = { config_id := ss.config_id, nodes := ss.nodes,
              metadata := some ss.metadata }) := by
  refine ⟨fun ss => rfl, fun ss h => ?_⟩
  simp [stopsign_from_proto, map_mod256_of_lt ss.metadata h]

/-- C5 (witness): the spec's scenario 6 metadata [9, 8, 7] is in range and is
reproduced exactly in order. -/
theorem c5_metadata_decode_witness :
    stopsign_from_proto { config_id := 7, nodes := [1, 2, 3], metadata := [9, 8, 7] }
      = { config_id := 7, nodes := [1, 2, 3], metadata := some [9, 8, 7] } :=
  c5_metadata_decode_amended.2
    { config_id := 7, nodes := [1, 2, 3], metadata := [9, 8, 7] } (by decide)

/-- C6 (counterexample): send_ble is an outbound send that spawns zero
background units of work, not exactly one; and in the task send_sp does spawn,
a transport-level failure (connection refused with an empty pool) is not
absorbed — the task panics on unwrap. -/
theorem c6_send_counterexample :
    send_ble 2 { from_ := 1, to_ := 2, msg := .request { round := 3 } } = [] ∧
    prepare_task Option.none (.err "connection refused") (fun _ => .ok ())
      = .panicked :=
  ⟨rfl, rfl⟩

/-- C6 (amended): only send_sp on a Prepare message spawns a background task,
and then exactly one; send_ble spawns none, so election messages are dropped
without a task. Inside the spawned task a transport-level failure — a failed
connect when the pool is empty, or a failed remote call — makes that task
panic via unwrap rather than being logged; the caller has already returned at
spawn time, and the message is simply not delivered. A successful connect and
call complete the task normally. -/
theorem c6_send_behavior_amended :
    (∀ (node_addr : Nat → String) (to_id f t : Nat) (p : Prepare),
        send_sp_spawn_count node_addr to_id { from_ := f, to_ := t, msg := .prepare p }
          = 1) ∧
    (∀ (to_id : Nat) (m : BLEMessage), (send_ble to_id m).length = 0) ∧
    (∀ (e : String) (call : Nat → NetResult Unit),
        prepare_task Option.none (.err e) call = .panicked) ∧
    (∀ (c : Nat) (connect : NetResult Nat) (e : String),
        prepare_task (some c) connect (fun _ => .err e) = .panicked) ∧
    (∀ (c : Nat) (connect : NetResult Nat),
        prepare_task (some c) connect (fun _ => .ok ()) = .ret ()) :=
  ⟨fun _ _ _ _ _ => rfl, fun _ _ => rfl, fun _ _ => rfl,
   fun _ _ _ => rfl, fun _ _ => rfl⟩

/-- C7: the idle-handle queue of a ConnectionPool never exceeds its capacity
of 16 along any sequence of acquire/release events from the empty pool;
releasing into a full pool discards the handle (the queue is unchanged);
releasing below capacity appends the handle; and a dropped leased connection
replenishes exactly its originating pool, leaving every other pool's queue
untouched. -/
theorem c7_pool_bound :
    (∀ ops : List PoolOp, (run_pool ops).length ≤ 16) ∧
    (∀ (q : List Nat) (conn : Nat), 16 ≤ q.length → replenish q conn = q) ∧
    (∀ (q : List Nat) (conn : Nat), q.length < 16 → replenish q conn = q ++ [conn]) ∧
    (∀ (dir : String → List Nat) (lc : LeasedConnection),
        connection_drop dir lc lc.pool = replenish (dir lc.pool) lc.conn) ∧
    (∀ (dir : String → List Nat) (lc : LeasedConnection) (a : String),
        a ≠ lc.pool → connection_drop dir lc a = dir a) := by
  refine ⟨?_, ?_, ?_, ?_, ?_⟩
  · intro ops
    exact run_pool_from_length_le ops [] (by simp)
  · intro q conn h
    simp [replenish, Nat.not_lt.mpr h]
  · intro q conn h
    simp [replenish, h]
  · intro dir lc
    simp [connection_drop]
  · intro dir lc a h
    simp [connection_drop, h]

/-- C7 (witness): the pool-bound behaviors at concrete inputs — releasing into
a full queue of 16 handles leaves it unchanged, releasing into a 2-element
queue appends, and dropping a lease for pool a does not touch pool b. -/
theorem c7_pool_bound_witness :
    replenish (List.replicate 16 0) 5 = List.replicate 16 0 ∧
    replenish [1, 2] 3 = [1, 2, 3] ∧
    connection_drop (fun _ => []) { conn := 9, pool := "a" } "b" = [] :=
  ⟨c7_pool_bound.2.1 (List.replicate 16 0) 5 (by simp),
   c7_pool_bound.2.2.1 [1, 2] 3 (by decide),
   c7_pool_bound.2.2.2.2 (fun _ => []) { conn := 9, pool := "a" } "b" (by decide)⟩

/-- C8: encoding the Prepare message { n = Ballot(2,0,1), ld = 5, n_accepted =
Ballot(1,0,1), la = 5 } from node 1 to node 2 via send_sp and decoding the
resulting wire request via the prepare handler yields an envelope whose from,
to, n, ld, n_accepted and la fields equal the originals exactly. -/
theorem c8_prepare_concrete_round_trip :
    (send_sp (fun _ => "127.0.0.1:50002") 2
        { from_ := 1, to_ := 2,
          msg := .prepare { n := ⟨2, 0, 1⟩, ld := 5,
                            n_accepted := ⟨1, 0, 1⟩, la := 5 } }).map
        (fun sp => rpc_prepare sp.req)
      = some (.ok { from_ := 1, to_ := 2,
                    msg := .prepare { n := ⟨2, 0, 1⟩, ld := 5,
                                      n_accepted := ⟨1, 0, 1⟩, la := 5 } }) := rfl

/-- C9: execute forwards the SQL string to the engine's query path; on success
it returns exactly the rows the engine produced, values and order preserved;
on engine failure it returns an explicit internal-error status instead of
rows. -/
theorem c9_execute_forwards :
    (∀ (query_fn : String → Except String EngineResults) (req : Query)
        (r : EngineResults),
        query_fn req.sql = .ok r →
        rpc_execute query_fn req
          = .ok { rows := r.rows.map (fun row => { values := row.values }) }) ∧
    (∀ (query_fn : String → Except String EngineResults) (req : Query)
        (e : String),
        query_fn req.sql = .error e →
        rpc_execute query_fn req = .err (.internal e)) := by
  constructor
  · intro query_fn req r h
    simp [rpc_execute, h]
  · intro query_fn req e h
    simp [rpc_execute, h]

/-- C9 (witness): against a fake engine returning the single row ["1"],
execute("SELECT 1") returns exactly that row; against a failing fake engine it
returns the internal-error status. -/
theorem c9_execute_forwards_witness :
    rpc_execute (fun _ => .ok { rows := [{ values := ["1"] }] }) { sql := "SELECT 1" }
      = .ok { rows := [{ values := ["1"] }] } ∧
    rpc_execute (fun _ => .error "not leader") { sql := "SELECT 1" }
      = .err (.internal "not leader") :=
  ⟨c9_execute_forwards.1 _ { sql := "SELECT 1" } { rows := [{ values := ["1"] }] } rfl,
   c9_execute_forwards.2 _ { sql := "SELECT 1" } "not leader" rfl⟩

/-- C10: every wire SyncItem carrying the Snapshot tag decodes to
SyncItem::Snapshot(SnapshotType::Delta(())), whatever payload the wire
carried; in particular any two distinct wire snapshot values decode to the
same in-memory value. -/
theorem c10_snapshot_decode_collapses :
    (∀ s : Nat, sync_item_from_proto { item := some (.snapshot s) }
        = .ret (.snapshot (.delta ()))) ∧
    (∀ s t : Nat, sync_item_from_proto { item := some (.snapshot s) }
        = sync_item_from_proto { item := some (.snapshot t) }) :=
  ⟨fun _ => rfl, fun _ _ => rfl⟩

end ChiselStore
